/-
Verification of the huntflow-base-metrics request-metrics instrumentation layer.

The development shallowly embeds the Python sources:
  * `huntflow_base_metrics/web_frameworks/_middleware.py` (route filtering,
    `is_excluded`, `need_process`, `PathTemplate`);
  * `huntflow_base_metrics/web_frameworks/fastapi.py`
    (`_PrometheusMiddleware.dispatch`);
  * `huntflow_base_metrics/web_frameworks/litestar.py`
    (`RequestSpan`, `_PrometheusMiddleware.__call__`, `_get_wrapped_send`,
    `get_middleware`);
  * `huntflow_base_metrics/base_metrics.py` (`observe_metrics`,
    `_update_metric_file`, `stop_metrics`);
  * `huntflow_base_metrics/metrics_export.py` (`_update_metric_file`,
    `stop_export_to_file`);
  * `huntflow_base_metrics/_context.py` (`MetricsContext`).

Collector mutations (`.inc()`, `.dec()`, `.observe(v)`) are modelled as an
explicit trace of `MetricEvent`s emitted by each operation, so "no metric is
touched" is "the trace is empty".  Wall-clock instants (`time.perf_counter()`)
are modelled as integer parameters supplied at the points where the code reads
the clock.  An async callable that may raise is modelled as an
`Except String` value carrying the exception's type name in the error case;
`BaseException` (hence also cancellation) is covered by the error case.
-/

import Mathlib

namespace HuntflowBaseMetrics

/-! ## Metric collectors and their mutation events

The five HTTP metrics registered in `web_frameworks/_request.py` /
`base_metrics.py`: `requests_total`, `responses_total`,
`requests_processing_time_seconds`, `exceptions_total`, `requests_in_progress`.
-/

inductive MetricName where
  | requests
  | responses
  | processing_time
  | exceptions
  | in_progress
  deriving DecidableEq, Repr

inductive MetricOp where
  | inc
  | dec
  | observe (v : Int)
  deriving DecidableEq, Repr

/-- Common label values from `COMMON_LABELS_VALUES`: `service` and `pod`. -/
structure CommonLabels where
  service : String
  pod : String
  deriving DecidableEq, Repr

/-- `apply_labels(metric, **labels)` binds the supplied label values merged
with the current common-label values (`service`, `pod`). -/
def apply_labels (c : CommonLabels) (extra : List (String × String)) :
    List (String × String) :=
  [("service", c.service), ("pod", c.pod)] ++ extra

/-- Labels `method`, `path_template` used by `REQUESTS`,
`REQUESTS_PROCESSING_TIME` and `REQUESTS_IN_PROGRESS`. -/
def httpLabels (c : CommonLabels) (method pathTemplate : String) :
    List (String × String) :=
  apply_labels c [("method", method), ("path_template", pathTemplate)]

/-- One collector mutation: which metric, with which bound labels, and the
operation (`inc` / `dec` / `observe v`). -/
structure MetricEvent where
  metric : MetricName
  labels : List (String × String)
  op : MetricOp
  deriving DecidableEq, Repr

/-! ## Route filtering (`web_frameworks/_middleware.py`) -/

/-- `PathTemplate` dataclass: the resolved route pattern and whether the
request was matched to a known route. -/
structure PathTemplate where
  value : String
  is_handled : Bool
  deriving DecidableEq, Repr

/-- Python truthiness of an `Optional[Set[str]]` attribute: `None` and the
empty set are both falsy. -/
def optTruthy (o : Option (List String)) : Bool :=
  match o with
  | none => false
  | some l => !l.isEmpty

/-- Set membership test `template in routes` for an `Optional[Set[str]]`. -/
def optMem (t : String) (o : Option (List String)) : Bool :=
  match o with
  | none => false
  | some l => l.contains t

/-- `PrometheusMiddleware.is_excluded` (`_middleware.py`, lines 26-32):
```python
if cls.include_routes:
    return path_template.value not in cls.include_routes
if cls.exclude_routes:
    return path_template.value in cls.exclude_routes
return False
``` -/
def is_excluded (include_routes exclude_routes : Option (List String))
    (path_template : String) : Bool :=
  if optTruthy include_routes then
    !optMem path_template include_routes
  else if optTruthy exclude_routes then
    optMem path_template exclude_routes
  else
    false

/-- `PrometheusMiddleware.need_process` (`_middleware.py`, lines 34-40):
`METRIC_CONTEXT.enable_metrics and path_template.is_handled and
not cls.is_excluded(path_template)`. -/
def need_process (enable_metrics : Bool)
    (include_routes exclude_routes : Option (List String))
    (pt : PathTemplate) : Bool :=
  enable_metrics && pt.is_handled &&
    !is_excluded include_routes exclude_routes pt.value

/-! ## FastAPI middleware dispatch (`web_frameworks/fastapi.py`) -/

/-- Outcome of `await call_next(request)`: either a response with a status
code, or an exception carrying its type name (`type(e).__name__`). -/
inductive CallResult where
  | ok (statusCode : Nat)
  | exn (excType : String)
  deriving DecidableEq, Repr

/-- Forwarding the request unmodified: a response is returned as-is and an
exception propagates as-is. -/
def passThrough (call : CallResult) : Except String Nat :=
  match call with
  | .ok s => .ok s
  | .exn e => .error e

/-- `_PrometheusMiddleware.dispatch` (`web_frameworks/fastapi.py`,
lines 27-72), with the `try/except/else/finally` control flow linearised into
the event trace each path produces.  `beforeTime`/`afterTime` are the two
`time.perf_counter()` readings; `status_code` starts at
`HTTP_500_INTERNAL_SERVER_ERROR` and is overwritten by
`response.status_code` only on the success path. -/
def dispatch (enable_metrics : Bool)
    (include_routes exclude_routes : Option (List String))
    (common : CommonLabels) (method : String)
    (pathTemplate : String) (is_handled_path : Bool)
    (beforeTime afterTime : Int) (call : CallResult) :
    Except String Nat × List MetricEvent :=
  if !enable_metrics || !is_handled_path ||
      is_excluded include_routes exclude_routes pathTemplate then
    (passThrough call, [])
  else
    let hl := httpLabels common method pathTemplate
    let pre : List MetricEvent :=
      [⟨.in_progress, hl, .inc⟩, ⟨.requests, hl, .inc⟩]
    match call with
    | .exn e =>
        -- except BaseException: EXCEPTIONS.inc(); raise
        -- finally: RESPONSES(status_code=str(500)).inc(); REQUESTS_IN_PROGRESS.dec()
        (.error e,
          pre ++
            [⟨.exceptions,
              apply_labels common
                [("method", method), ("path_template", pathTemplate),
                 ("exception_type", e)], .inc⟩,
             ⟨.responses,
              apply_labels common
                [("method", method), ("path_template", pathTemplate),
                 ("status_code", "500")], .inc⟩,
             ⟨.in_progress, hl, .dec⟩])
    | .ok s =>
        -- else: status_code = response.status_code;
        --       REQUESTS_PROCESSING_TIME.observe(after_time - before_time)
        -- finally: RESPONSES.inc(); REQUESTS_IN_PROGRESS.dec()
        (.ok s,
          pre ++
            [⟨.processing_time, hl, .observe (afterTime - beforeTime)⟩,
             ⟨.responses,
              apply_labels common
                [("method", method), ("path_template", pathTemplate),
                 ("status_code", toString s)], .inc⟩,
             ⟨.in_progress, hl, .dec⟩])

/-! ## Litestar middleware (`web_frameworks/litestar.py`) -/

/-- An ASGI message handed to the wrapped `send` callable.  A
`http.response.body` message carries the `time.perf_counter()` instant at
which the wrapped send processes it. -/
inductive AsgiMessage where
  | responseStart (status : Nat)
  | responseBody (time : Int)
  | other
  deriving DecidableEq, Repr

/-- `RequestSpan` dataclass (`litestar.py`, lines 38-44), with the dataclass
defaults: `end_time: float = 0`, `duration: float = 0`,
`status_code: int = 200`. -/
structure RequestSpan where
  start_time : Int
  end_time : Int := 0
  duration : Int := 0
  status_code : Nat := 200
  deriving DecidableEq, Repr

/-- Body of `wrapped_send` inside `_get_wrapped_send` (`litestar.py`,
lines 95-104): the two `if message["type"] == ...` branches, each updating the
span (the forwarded `await send(message)` has no metric effect). -/
def wrapped_send (span : RequestSpan) (message : AsgiMessage) : RequestSpan :=
  let span :=
    match message with
    | .responseStart s => { span with status_code := s }
    | _ => span
  match message with
  | .responseBody t =>
      { span with duration := t - span.start_time, end_time := t }
  | _ => span

/-- The span state after the application has sent `messages` through the
wrapped send, starting from `RequestSpan(start_time=startTime)`. -/
def finalSpan (startTime : Int) (messages : List AsgiMessage) : RequestSpan :=
  messages.foldl wrapped_send { start_time := startTime }

/-- `_PrometheusMiddleware.__call__` (`litestar.py`, lines 55-91).
`messages` is the sequence of ASGI messages the application emits through the
wrapped send before returning or raising; `outcome` is `none` for a normal
return and `some e` when `await self.app(...)` raises an exception whose type
name is `e`; `ctxExceptionType` is the value of `exception_context.get()`
read in the `finally` block. -/
def litestar_call (enable_metrics : Bool)
    (include_routes exclude_routes : Option (List String))
    (common : CommonLabels) (method : String) (pathTemplate : String)
    (startTime : Int) (messages : List AsgiMessage)
    (outcome : Option String) (ctxExceptionType : Option String) :
    Except String Unit × List MetricEvent :=
  if !enable_metrics ||
      is_excluded include_routes exclude_routes pathTemplate then
    ((match outcome with | none => .ok () | some e => .error e), [])
  else
    let hl := httpLabels common method pathTemplate
    let span := finalSpan startTime messages
    -- finally: observe(span.duration); RESPONSES(str(span.status_code)).inc();
    --          REQUESTS_IN_PROGRESS.dec(); EXCEPTIONS.inc() if exception_context
    let finEvents : List MetricEvent :=
      [⟨.processing_time, hl, .observe span.duration⟩,
       ⟨.responses,
        apply_labels common
          [("method", method), ("path_template", pathTemplate),
           ("status_code", toString span.status_code)], .inc⟩,
       ⟨.in_progress, hl, .dec⟩] ++
      (match ctxExceptionType with
       | some et =>
           [⟨.exceptions,
             apply_labels common
               [("method", method), ("path_template", pathTemplate),
                ("exception_type", et)], .inc⟩]
       | none => [])
    ((match outcome with | none => .ok () | some e => .error e),
     [⟨.in_progress, hl, .inc⟩, ⟨.requests, hl, .inc⟩] ++ finEvents)

/-! ## `observe_metrics` decorator (`base_metrics.py`, lines 250-280) -/

/-- A collector mutation performed by the `observe_metrics` wrapper on the
user-supplied timing histogram / in-progress gauge, identified by the
collector's name. -/
structure ObserveEvent where
  collector : String
  labels : List (String × String)
  op : MetricOp
  deriving DecidableEq, Repr

/-- Labels `COMMON_LABELS_VALUES` plus `method` used by `observe_metrics`. -/
def methodLabels (c : CommonLabels) (method : String) :
    List (String × String) :=
  apply_labels c [("method", method)]

/-- One invocation of the `_wrapper` closure produced by
`observe_metrics(method, metric_timings, metric_inprogress)`
(`base_metrics.py`, lines 261-276) on argument `a`.  The wrapped coroutine is
`coro : α → Except String β`; `start`/`endT` are the two
`time.perf_counter()` readings; `metric_inprogress` is `some` gauge name or
`none`. -/
def observe_metrics (enable_metrics : Bool) (common : CommonLabels)
    (method : String) (metric_timings : String)
    (metric_inprogress : Option String)
    (coro : α → Except String β) (start endT : Int) (a : α) :
    Except String β × List ObserveEvent :=
  if !enable_metrics then
    (coro a, [])
  else
    let pre : List ObserveEvent :=
      match metric_inprogress with
      | some g => [⟨g, methodLabels common method, .inc⟩]
      | none => []
    -- try: return await coro(...)
    -- finally: metric_timings.observe(end - start); metric_inprogress.dec()
    let fin : List ObserveEvent :=
      [⟨metric_timings, methodLabels common method, .observe (endT - start)⟩] ++
      (match metric_inprogress with
       | some g => [⟨g, methodLabels common method, .dec⟩]
       | none => [])
    (coro a, pre ++ fin)

/-! ## File-export loop (`metrics_export.py` / `base_metrics.py`,
`_update_metric_file`) -/

/-- Limit `_MAX_FILE_WRITE_ERRORS` for a series of exceptions during saving
metrics to file. -/
def MAX_FILE_WRITE_ERRORS : Nat := 5

/-- Outcome of one iteration of the `while True` loop: the write succeeds,
raises some `Exception`, or the sleep/write is hit by
`asyncio.CancelledError`. -/
inductive Tick where
  | success
  | failure
  | cancelled
  deriving DecidableEq, Repr

/-- Why (or whether) the loop left `while True` after consuming a finite
prefix of iteration outcomes; `running n` means the prefix was exhausted with
the loop still alive and `error_count = n`. -/
inductive LoopExit where
  | cancelledExit
  | errorLimit
  | running (error_count : Nat)
  deriving DecidableEq, Repr

/-- The `while True` loop of `_update_metric_file` (`metrics_export.py`,
lines 27-42) run over a finite prefix of iteration outcomes, carrying
`error_count`:
 * success: `error_count = 0`, continue;
 * `CancelledError`: `break`;
 * other exception: `error_count += 1`, `break` once
   `error_count >= _MAX_FILE_WRITE_ERRORS`. -/
def updateMetricFileLoop : List Tick → Nat → LoopExit
  | [], n => .running n
  | t :: rest, n =>
      match t with
      | .cancelled => .cancelledExit
      | .success => updateMetricFileLoop rest 0
      | .failure =>
          if n + 1 ≥ MAX_FILE_WRITE_ERRORS then .errorLimit
          else updateMetricFileLoop rest (n + 1)

/-! ## Metrics context and stop (`_context.py`, `metrics_export.py`,
`base.py`) -/

/-- `MetricsContext` (`_context.py`): process-wide singleton state.  The live
registry is the list of collector names currently added to it;
`metrics_by_names` is the registration map's key set; `metricValues` are the
current (collector, sample) pairs held by collectors. -/
structure MetricsContext where
  enable_metrics : Bool
  registryCollectors : List String
  write_to_file_task : Option Nat
  metrics_by_names : List String
  metricValues : List (String × Int)
  deriving DecidableEq, Repr

/-- `CollectorRegistry.unregister`: raises `KeyError` when the collector is
not registered, otherwise removes it. -/
def unregister (collector : String) (registry : List String) :
    Except String (List String) :=
  if registry.contains collector then
    .ok (registry.filter (fun c => c ≠ collector))
  else
    .error "KeyError"

/-- Removing one collector with the `KeyError` ignored (the
`try: unregister ... except: pass` pattern). -/
def removeIgnoringNotFound (registry : List String) (collector : String) :
    List String :=
  match unregister collector registry with
  | .ok r => r
  | .error _ => registry

/-- `stop_export_to_file` (`metrics_export.py`, lines 58-62): cancel the
background task when there is one (cancellation itself has no effect on the
modelled state) and clear the handle. -/
def stop_export_to_file (ctx : MetricsContext) : MetricsContext :=
  { ctx with write_to_file_task := none }

/-- Modelled from the spec: `stop_metrics` of the registry module
(`huntflow_base_metrics/base.py`), which is absent from the sources at hand
(only its callers and re-exports are present).  Per §4.1: "sets enabled =
false; removes and clears every registered metric from the live registry
(ignoring not-found errors — idempotent); stops the File Exporter."  The
File-Exporter part is `stop_export_to_file` from `metrics_export.py`, which
is embedded from the source above.  The result is an `Except` so that "does
not raise" is provable: any uncaught error would surface as `.error`. -/
def stop_metrics (ctx : MetricsContext) : Except String MetricsContext :=
  let ctx := { ctx with enable_metrics := false }
  let live := ctx.metrics_by_names.foldl removeIgnoringNotFound
    ctx.registryCollectors
  let values := ctx.metricValues.filter
    (fun p => !ctx.metrics_by_names.contains p.1)
  .ok (stop_export_to_file
    { ctx with registryCollectors := live, metricValues := values })

/-! ## Middleware class attributes (`web_frameworks/fastapi.py`
`add_middleware`, `litestar.py` `get_middleware`) -/

/-- The class-level attributes `include_routes` / `exclude_routes` of the
`_PrometheusMiddleware` type.  They live on the class, not on instances, so
there is exactly one copy per process. -/
structure MiddlewareClassAttrs where
  include_routes : Option (List String)
  exclude_routes : Option (List String)
  deriving DecidableEq, Repr

/-- `set(...)` conversion applied by `add_middleware` / `get_middleware` to a
non-`None` iterable, modelled as deduplication. -/
def toRouteSet (o : Option (List String)) : Option (List String) :=
  o.map List.dedup

/-- `add_middleware(app, include_routes, exclude_routes)`
(`web_frameworks/fastapi.py`, lines 92-112) and equally
`get_middleware` (`litestar.py`, lines 117-138): overwrite the class-level
attributes with the (set-converted) arguments.  The previous attribute
values are not consulted. -/
def add_middleware (include_routes exclude_routes : Option (List String))
    (_prev : MiddlewareClassAttrs) : MiddlewareClassAttrs :=
  { include_routes := toRouteSet include_routes,
    exclude_routes := toRouteSet exclude_routes }

/-- What any `_PrometheusMiddleware` instance computes in
`_is_path_excluded`: it reads the class-level attributes shared by all
instances. -/
def instanceIsExcluded (attrs : MiddlewareClassAttrs)
    (path_template : String) : Bool :=
  is_excluded attrs.include_routes attrs.exclude_routes path_template

/-! ## Trace helpers -/

/-- Number of `requests_in_progress` events with operation `op` in a trace. -/
def countInProgress (op : MetricOp) (tr : List MetricEvent) : Nat :=
  tr.countP (fun e => e.metric == .in_progress && e.op == op)

/-- Index of the first `requests_in_progress` event with operation `op`. -/
def idxInProgress (op : MetricOp) (tr : List MetricEvent) : Nat :=
  tr.findIdx (fun e => e.metric == .in_progress && e.op == op)

/-- Net effect of a trace on the `requests_in_progress` gauge. -/
def gaugeNet (tr : List MetricEvent) : Int :=
  tr.foldl
    (fun a e =>
      if e.metric == .in_progress then
        match e.op with
        | .inc => a + 1
        | .dec => a - 1
        | .observe _ => a
      else a)
    0

/-- The `status_code` label values of the `responses_total` increments in a
trace. -/
def responseStatusCodes (tr : List MetricEvent) : List String :=
  tr.filterMap
    (fun e =>
      if e.metric == .responses then e.labels.lookup "status_code" else none)

/-- The in-flight discipline over one trace: exactly one increment and one
decrement of `requests_in_progress`, both carrying the request's labels, the
increment strictly before the decrement, and a zero net effect on the
gauge. -/
def InFlightOnce (tr : List MetricEvent) (lbls : List (String × String)) :
    Prop :=
  countInProgress .inc tr = 1 ∧ countInProgress .dec tr = 1
    ∧ idxInProgress .inc tr < idxInProgress .dec tr
    ∧ gaugeNet tr = 0
    ∧ ∀ e ∈ tr, e.metric = .in_progress → e.labels = lbls

/-- Is a message a `http.response.start` event? -/
def isResponseStart : AsgiMessage → Bool
  | .responseStart _ => true
  | _ => false

/-- Is a message a `http.response.body` event? -/
def isResponseBody : AsgiMessage → Bool
  | .responseBody _ => true
  | _ => false

/-! ## Theorems -/

/-- C4: `is_excluded` route-filter semantics — a configured non-empty
include-set makes the predicate true exactly off the include-set and disables
the exclude-set entirely; otherwise a configured non-empty exclude-set makes
it true exactly on the exclude-set; otherwise it is false. -/
theorem is_excluded_filter_semantics
    (include_routes exclude_routes : Option (List String)) (t : String) :
    (∀ l, include_routes = some l → l ≠ [] →
        ((is_excluded include_routes exclude_routes t = true ↔ t ∉ l)
          ∧ ∀ exclude_routes2,
              is_excluded include_routes exclude_routes t
                = is_excluded include_routes exclude_routes2 t))
    ∧ ((include_routes = none ∨ include_routes = some []) →
        ∀ l, exclude_routes = some l → l ≠ [] →
          (is_excluded include_routes exclude_routes t = true ↔ t ∈ l))
    ∧ ((include_routes = none ∨ include_routes = some []) →
        (exclude_routes = none ∨ exclude_routes = some []) →
        is_excluded include_routes exclude_routes t = false) := by
  refine ⟨?_, ?_, ?_⟩
  · rintro l rfl hl
    have hT : optTruthy (some l) = true := by
      cases l with
      | nil => exact absurd rfl hl
      | cons a as => simp [optTruthy]
    constructor
    · simp [is_excluded, hT, optMem]
    · intro exclude_routes2
      simp [is_excluded, hT]
  · rintro (rfl | rfl) l rfl hl
    · have hT : optTruthy (some l) = true := by
        cases l with
        | nil => exact absurd rfl hl
        | cons a as => simp [optTruthy]
      simp [is_excluded, hT, optTruthy, optMem]
      exact fun _ => hl
    · have hT : optTruthy (some l) = true := by
        cases l with
        | nil => exact absurd rfl hl
        | cons a as => simp [optTruthy]
      simp [is_excluded, hT, optTruthy, optMem]
      exact fun _ => hl
  · rintro (rfl | rfl) (rfl | rfl) <;> simp [is_excluded, optTruthy]

/-- C4 witness: include-set `{"/ok"}` with exclude-set `{"/ok", "/one"}` —
`"/one"` is excluded (not in the include-set) and `"/ok"` is not. -/
theorem is_excluded_filter_semantics_witness :
    is_excluded (some ["/ok"]) (some ["/ok", "/one"]) "/one" = true
    ∧ is_excluded (some ["/ok"]) (some ["/ok", "/one"]) "/ok" = false := by
  have h1 :=
    ((is_excluded_filter_semantics (some ["/ok"]) (some ["/ok", "/one"])
        "/one").1 ["/ok"] rfl (by decide)).1
  have h2 :=
    ((is_excluded_filter_semantics (some ["/ok"]) (some ["/ok", "/one"])
        "/ok").1 ["/ok"] rfl (by decide)).1
  refine ⟨h1.mpr (by decide), ?_⟩
  cases hx : is_excluded (some ["/ok"]) (some ["/ok", "/one"]) "/ok" with
  | false => rfl
  | true => exact absurd (h2.mp hx) (by decide)

/-- C1: the FastAPI dispatch records metrics iff
`need_process = enabled ∧ handled ∧ ¬excluded`; when the conjunction is
false the request is passed through unmodified and the event trace is
empty. -/
theorem dispatch_records_iff_need_process
    (enable_metrics : Bool)
    (include_routes exclude_routes : Option (List String))
    (common : CommonLabels) (method pathTemplate : String)
    (is_handled_path : Bool) (beforeTime afterTime : Int)
    (call : CallResult) :
    ((dispatch enable_metrics include_routes exclude_routes common method
        pathTemplate is_handled_path beforeTime afterTime call).2 ≠ []
      ↔ need_process enable_metrics include_routes exclude_routes
          ⟨pathTemplate, is_handled_path⟩ = true)
    ∧ (need_process enable_metrics include_routes exclude_routes
          ⟨pathTemplate, is_handled_path⟩ = false →
        dispatch enable_metrics include_routes exclude_routes common method
            pathTemplate is_handled_path beforeTime afterTime call
          = (passThrough call, [])) := by
  cases enable_metrics <;> cases is_handled_path <;>
    cases hx : is_excluded include_routes exclude_routes pathTemplate <;>
      cases call <;>
        simp [dispatch, need_process, hx]

/-- C1 witness: with metrics disabled the dispatch of a handled `GET /ok`
returning 200 is the unmodified pass-through with an empty trace. -/
theorem dispatch_records_iff_need_process_witness :
    need_process false none none ⟨"/ok", true⟩ = false
    ∧ dispatch false none none ⟨"svc", "pod"⟩ "GET" "/ok" true 0 1 (.ok 200)
        = (passThrough (.ok 200), []) :=
  ⟨by decide,
   (dispatch_records_iff_need_process false none none ⟨"svc", "pod"⟩ "GET"
      "/ok" true 0 1 (.ok 200)).2 (by decide)⟩

/-- C2: for every observed request, both in the FastAPI dispatch and in the
Litestar `__call__`, the in-flight gauge is incremented exactly once before
the application call and decremented exactly once in the `finally` block on
every exit path (the application outcome — normal return, exception or
cancellation — is arbitrary), with matching labels; the net effect on the
gauge is zero, so it returns to its pre-request value. -/
theorem dispatch_in_flight_balanced
    (enable_metrics : Bool)
    (include_routes exclude_routes : Option (List String))
    (common : CommonLabels) (method pathTemplate : String)
    (is_handled_path : Bool) (beforeTime afterTime startTime : Int)
    (call : CallResult) (messages : List AsgiMessage)
    (outcome ctxExceptionType : Option String)
    (h : need_process enable_metrics include_routes exclude_routes
        ⟨pathTemplate, is_handled_path⟩ = true) :
    InFlightOnce
      (dispatch enable_metrics include_routes exclude_routes common method
        pathTemplate is_handled_path beforeTime afterTime call).2
      (httpLabels common method pathTemplate)
    ∧ InFlightOnce
        (litestar_call enable_metrics include_routes exclude_routes common
          method pathTemplate startTime messages outcome
          ctxExceptionType).2
        (httpLabels common method pathTemplate) := by
  simp only [need_process, Bool.and_eq_true, Bool.not_eq_true'] at h
  obtain ⟨⟨he, hh⟩, hx⟩ := h
  subst he
  subst hh
  constructor
  · cases call <;>
      · simp only [dispatch, hx, Bool.not_true, Bool.false_or, if_neg,
          Bool.false_eq_true, not_false_eq_true, reduceIte]
        refine ⟨by rfl, by rfl, ?_, ?_, ?_⟩
        · show (0 : Nat) < 4
          decide
        · show (0 : Int) + 1 - 1 = 0
          decide
        · intro e he hm
          fin_cases he <;> simp_all
  · cases ctxExceptionType <;>
      · simp only [litestar_call, hx, Bool.not_true, Bool.false_or, if_neg,
          Bool.false_eq_true, not_false_eq_true, reduceIte]
        refine ⟨by rfl, by rfl, ?_, ?_, ?_⟩
        · show (0 : Nat) < 4
          decide
        · show (0 : Int) + 1 - 1 = 0
          decide
        · intro e he hm
          fin_cases he <;> simp_all

/-- C2 witness: a concrete observed request (enabled, handled, unfiltered
`GET /ok` returning 200, and the Litestar run sending a start/body pair)
satisfies the in-flight discipline in both adapters. -/
theorem dispatch_in_flight_balanced_witness :
    InFlightOnce
      (dispatch true none none ⟨"svc", "pod"⟩ "GET" "/ok" true 0 1
        (.ok 200)).2
      (httpLabels ⟨"svc", "pod"⟩ "GET" "/ok")
    ∧ InFlightOnce
        (litestar_call true none none ⟨"svc", "pod"⟩ "GET" "/ok" 0
          [.responseStart 200, .responseBody 1] none none).2
        (httpLabels ⟨"svc", "pod"⟩ "GET" "/ok") :=
  dispatch_in_flight_balanced true none none ⟨"svc", "pod"⟩ "GET" "/ok"
    true 0 1 0 (.ok 200) [.responseStart 200, .responseBody 1] none none
    (by decide)

/-- C3: for an observed request in which the application raises an exception
of type name `e`, the FastAPI dispatch emits exactly the trace: in-flight
inc, requests inc, one exception-counter inc labelled with `e`, one
response-counter inc with status-code label "500", and the in-flight dec —
and re-raises `e` unchanged (`.error e`). -/
theorem dispatch_exception_path
    (enable_metrics : Bool)
    (include_routes exclude_routes : Option (List String))
    (common : CommonLabels) (method pathTemplate : String)
    (is_handled_path : Bool) (beforeTime afterTime : Int) (e : String)
    (h : need_process enable_metrics include_routes exclude_routes
        ⟨pathTemplate, is_handled_path⟩ = true) :
    dispatch enable_metrics include_routes exclude_routes common method
        pathTemplate is_handled_path beforeTime afterTime (.exn e)
      = (.error e,
         [⟨.in_progress, httpLabels common method pathTemplate, .inc⟩,
          ⟨.requests, httpLabels common method pathTemplate, .inc⟩,
          ⟨.exceptions,
           apply_labels common
             [("method", method), ("path_template", pathTemplate),
              ("exception_type", e)], .inc⟩,
          ⟨.responses,
           apply_labels common
             [("method", method), ("path_template", pathTemplate),
              ("status_code", "500")], .inc⟩,
          ⟨.in_progress, httpLabels common method pathTemplate, .dec⟩]) := by
  simp only [need_process, Bool.and_eq_true, Bool.not_eq_true'] at h
  obtain ⟨⟨he, hh⟩, hx⟩ := h
  subst he
  subst hh
  simp [dispatch, hx]

/-- C3 witness: a handler raising `ValueError` on `GET /valueerror` yields
exactly one `exceptions_total` inc labelled `ValueError`, one
`responses_total` inc labelled `500`, the in-flight dec, and the re-raised
exception. -/
theorem dispatch_exception_path_witness :
    dispatch true none none ⟨"svc", "pod"⟩ "GET" "/valueerror" true 0 1
        (.exn "ValueError")
      = (.error "ValueError",
         [⟨.in_progress, httpLabels ⟨"svc", "pod"⟩ "GET" "/valueerror",
           .inc⟩,
          ⟨.requests, httpLabels ⟨"svc", "pod"⟩ "GET" "/valueerror", .inc⟩,
          ⟨.exceptions,
           apply_labels ⟨"svc", "pod"⟩
             [("method", "GET"), ("path_template", "/valueerror"),
              ("exception_type", "ValueError")], .inc⟩,
          ⟨.responses,
           apply_labels ⟨"svc", "pod"⟩
             [("method", "GET"), ("path_template", "/valueerror"),
              ("status_code", "500")], .inc⟩,
          ⟨.in_progress, httpLabels ⟨"svc", "pod"⟩ "GET" "/valueerror",
           .dec⟩]) :=
  dispatch_exception_path true none none ⟨"svc", "pod"⟩ "GET" "/valueerror"
    true 0 1 "ValueError" (by decide)

/-- Removing a collector never leaves that collector in the registry. -/
lemma removeIgnoringNotFound_self_not_mem (registry : List String)
    (m : String) : m ∉ removeIgnoringNotFound registry m := by
  unfold removeIgnoringNotFound unregister
  by_cases hc : registry.contains m
  · simp only [hc, if_true]
    intro hmem
    have := (List.mem_filter.mp hmem).2
    simp at this
  · simp only [hc, Bool.false_eq_true, if_false]
    intro hmem
    have : registry.contains m = true := by
      simpa [List.contains] using List.elem_iff.mpr hmem
    exact absurd this (by simpa using hc)

/-- Removing a collector never adds collectors. -/
lemma removeIgnoringNotFound_preserves_not_mem (registry : List String)
    (m x : String) (hx : x ∉ registry) :
    x ∉ removeIgnoringNotFound registry m := by
  unfold removeIgnoringNotFound unregister
  by_cases hc : registry.contains m
  · simp only [hc, if_true]
    intro hmem
    exact hx (List.mem_filter.mp hmem).1
  · simp only [hc, Bool.false_eq_true, if_false]
    exact hx

/-- Folding the ignore-not-found removal never adds collectors. -/
lemma foldl_remove_preserves_not_mem (names : List String)
    (registry : List String) (x : String) (hx : x ∉ registry) :
    x ∉ names.foldl removeIgnoringNotFound registry := by
  induction names generalizing registry with
  | nil => simpa using hx
  | cons n rest ih =>
      simp only [List.foldl_cons]
      exact ih _ (removeIgnoringNotFound_preserves_not_mem _ _ _ hx)

/-- After folding the ignore-not-found removal over a list of collectors,
none of them remains in the registry. -/
lemma foldl_remove_all (names registry : List String) (m : String)
    (hm : m ∈ names) :
    m ∉ names.foldl removeIgnoringNotFound registry := by
  induction names generalizing registry with
  | nil => cases hm
  | cons n rest ih =>
      simp only [List.foldl_cons]
      rcases List.mem_cons.mp hm with rfl | hm'
      · by_cases hr : m ∈ rest
        · exact ih _ hr
        · exact foldl_remove_preserves_not_mem rest _ m
            (removeIgnoringNotFound_self_not_mem registry m)
      · exact ih _ hm'

/-- C5: `stop_metrics` returns without raising, leaves the enabled flag
false, removes every registered metric from the live registry and clears
their sample values, clears the file-export task handle, and a second call
in a row also returns without raising. -/
theorem stop_metrics_idempotent_teardown (ctx : MetricsContext) :
    ∃ ctx1, stop_metrics ctx = .ok ctx1
      ∧ ctx1.enable_metrics = false
      ∧ (∀ m ∈ ctx.metrics_by_names, m ∉ ctx1.registryCollectors)
      ∧ (∀ p ∈ ctx1.metricValues, p.1 ∉ ctx.metrics_by_names)
      ∧ ctx1.write_to_file_task = none
      ∧ ∃ ctx2, stop_metrics ctx1 = .ok ctx2 := by
  refine ⟨_, rfl, rfl, ?_, ?_, rfl, ⟨_, rfl⟩⟩
  · intro m hm
    exact foldl_remove_all _ _ _ hm
  · intro p hp
    have h2 := (List.mem_filter.mp hp).2
    intro hmem
    have hc : (MetricsContext.metrics_by_names ctx).contains p.1 = true := by
      simpa [List.contains] using List.elem_iff.mpr hmem
    simp only [Bool.not_eq_true', ← Bool.not_eq_true] at h2
    simp at h2
    exact h2 hmem

/-- C5 witness: a concrete context — enabled, one metric live in the
registry with a sample value, a running export task — is torn down by
`stop_metrics`, and a second call in a row also succeeds. -/
theorem stop_metrics_idempotent_teardown_witness :
    ∃ ctx1,
      stop_metrics
          ⟨true, ["requests_total"], some 1, ["requests_total"],
            [("requests_total", 3)]⟩ = .ok ctx1
        ∧ ctx1.enable_metrics = false
        ∧ (∀ m ∈ (["requests_total"] : List String),
            m ∉ ctx1.registryCollectors)
        ∧ (∀ p ∈ ctx1.metricValues,
            p.1 ∉ (["requests_total"] : List String))
        ∧ ctx1.write_to_file_task = none
        ∧ ∃ ctx2, stop_metrics ctx1 = .ok ctx2 :=
  stop_metrics_idempotent_teardown
    ⟨true, ["requests_total"], some 1, ["requests_total"],
      [("requests_total", 3)]⟩

/-- C6: with metrics disabled, the `observe_metrics` wrapper applied to any
coroutine at any argument is the unwrapped coroutine call: the same result
or the same exception, and an empty collector-event trace. -/
theorem observe_metrics_disabled_no_op {α β : Type}
    (common : CommonLabels) (method metric_timings : String)
    (metric_inprogress : Option String) (coro : α → Except String β)
    (start endT : Int) (a : α) :
    observe_metrics false common method metric_timings metric_inprogress
        coro start endT a
      = (coro a, []) := by
  simp [observe_metrics]

/-- C9: with metrics enabled, when the wrapped coroutine raises, the timing
histogram is still observed with the elapsed duration, the in-progress gauge
(when provided) is still incremented before and decremented after, and the
original exception propagates unchanged. -/
theorem observe_metrics_exception_transparent {α β : Type}
    (common : CommonLabels) (method metric_timings : String)
    (metric_inprogress : Option String) (coro : α → Except String β)
    (start endT : Int) (a : α) (e : String)
    (h : coro a = .error e) :
    observe_metrics true common method metric_timings metric_inprogress
        coro start endT a
      = (.error e,
         (match metric_inprogress with
          | some g => [⟨g, methodLabels common method, .inc⟩]
          | none => []) ++
         [⟨metric_timings, methodLabels common method,
           .observe (endT - start)⟩] ++
         (match metric_inprogress with
          | some g => [⟨g, methodLabels common method, .dec⟩]
          | none => [])) := by
  cases metric_inprogress <;> simp [observe_metrics, h]

/-- C9 witness: a coroutine raising `ValueError` under the wrapper with a
provided in-progress gauge still observes the elapsed duration `7 - 3`,
decrements the gauge, and re-raises. -/
theorem observe_metrics_exception_transparent_witness :
    observe_metrics true ⟨"svc", "pod"⟩ "op" "timings" (some "inprog")
        (fun _ : Unit => (.error "ValueError" : Except String Unit)) 3 7 ()
      = (.error "ValueError",
         [⟨"inprog", methodLabels ⟨"svc", "pod"⟩ "op", .inc⟩,
          ⟨"timings", methodLabels ⟨"svc", "pod"⟩ "op", .observe (7 - 3)⟩,
          ⟨"inprog", methodLabels ⟨"svc", "pod"⟩ "op", .dec⟩]) :=
  observe_metrics_exception_transparent ⟨"svc", "pod"⟩ "op" "timings"
    (some "inprog") (fun _ : Unit => (.error "ValueError" : Except String Unit))
    3 7 () "ValueError" rfl

/-- Starting inside a failure run that will reach the limit, the loop exits
with `errorLimit`. -/
lemma loop_replicate_failure_errorLimit (k : Nat) (post : List Tick)
    (n : Nat) (hk : 1 ≤ k) (hn : MAX_FILE_WRITE_ERRORS ≤ n + k) :
    updateMetricFileLoop (List.replicate k .failure ++ post) n
      = .errorLimit := by
  induction k generalizing n with
  | zero => omega
  | succ j ih =>
      simp only [List.replicate_succ, List.cons_append, updateMetricFileLoop]
      by_cases h5 : n + 1 ≥ MAX_FILE_WRITE_ERRORS
      · simp [h5]
      · have hj : 1 ≤ j := by
          by_contra hj0
          have : j = 0 := by omega
          subst this
          omega
        simp only [h5, if_false, ge_iff_le]
        exact ih (n + 1) hj (by omega)

/-- A cancellation-free prefix before a five-failure run does not save the
loop: it still exits with `errorLimit`. -/
lemma loop_prefix_errorLimit (pre : List Tick) (post : List Tick) (n : Nat)
    (hnc : Tick.cancelled ∉ pre) :
    updateMetricFileLoop
        (pre ++ List.replicate MAX_FILE_WRITE_ERRORS .failure ++ post) n
      = .errorLimit := by
  induction pre generalizing n with
  | nil =>
      simpa using loop_replicate_failure_errorLimit MAX_FILE_WRITE_ERRORS
        post n (by decide) (by omega)
  | cons t rest ih =>
      have hncr : Tick.cancelled ∉ rest :=
        fun hh => hnc (List.mem_cons_of_mem _ hh)
      cases t with
      | cancelled => exact absurd (List.mem_cons_self _ _) hnc
      | success =>
          simpa [updateMetricFileLoop] using ih 0 hncr
      | failure =>
          simp only [List.cons_append, updateMetricFileLoop]
          by_cases h5 : n + 1 ≥ MAX_FILE_WRITE_ERRORS
          · simp [h5]
          · simp only [h5, if_false, ge_iff_le]
            exact ih (n + 1) hncr

/-- If a cancellation-free run exits with `errorLimit` from counter `n`,
the tick list decomposes around a failure run: either a full five-failure
run somewhere, or an initial `5 - n`-failure run completing the counter. -/
lemma loop_errorLimit_decompose (ticks : List Tick) (n : Nat)
    (hnc : Tick.cancelled ∉ ticks)
    (hl : updateMetricFileLoop ticks n = .errorLimit) :
    (∃ pre post,
        ticks = pre ++ List.replicate MAX_FILE_WRITE_ERRORS .failure ++ post)
    ∨ (∃ post,
        ticks = List.replicate (MAX_FILE_WRITE_ERRORS - n) .failure
          ++ post) := by
  induction ticks generalizing n with
  | nil => simp [updateMetricFileLoop] at hl
  | cons t rest ih =>
      have hncr : Tick.cancelled ∉ rest :=
        fun hh => hnc (List.mem_cons_of_mem _ hh)
      cases t with
      | cancelled => exact absurd (List.mem_cons_self _ _) hnc
      | success =>
          simp only [updateMetricFileLoop] at hl
          rcases ih 0 hncr hl with ⟨pre, post, rfl⟩ | ⟨post, rfl⟩
          · exact .inl ⟨.success :: pre, post, by simp⟩
          · exact .inl ⟨[.success], post, by simp⟩
      | failure =>
          simp only [updateMetricFileLoop] at hl
          by_cases h5 : n + 1 ≥ MAX_FILE_WRITE_ERRORS
          · have h01 : MAX_FILE_WRITE_ERRORS - n ≤ 1 := by omega
            rcases Nat.le_one_iff_eq_zero_or_eq_one.mp h01 with h0 | h1
            · exact .inr ⟨.failure :: rest, by simp [h0]⟩
            · exact .inr ⟨rest, by simp [h1]⟩
          · rw [if_neg h5] at hl
            rcases ih (n + 1) hncr hl with ⟨pre, post, rfl⟩ | ⟨post, rfl⟩
            · exact .inl ⟨.failure :: pre, post, by simp⟩
            · refine .inr ⟨post, ?_⟩
              have hrw : MAX_FILE_WRITE_ERRORS - n
                  = (MAX_FILE_WRITE_ERRORS - (n + 1)) + 1 := by omega
              rw [hrw, List.replicate_succ]
              simp

/-- C7: the `_update_metric_file` loop policy — a failure increments the
consecutive-error counter and terminates exactly when it reaches
`_MAX_FILE_WRITE_ERRORS = 5`; a success resets the counter; up to four
consecutive failures followed by a success never terminate the loop;
cancellation exits without being counted as an error; and on
cancellation-free input the loop exits with the error limit precisely when
the ticks contain a run of five consecutive failures. -/
theorem update_metric_file_loop_policy (rest : List Tick) (n : Nat) :
    (updateMetricFileLoop (.failure :: rest) n
        = if n + 1 ≥ MAX_FILE_WRITE_ERRORS then .errorLimit
          else updateMetricFileLoop rest (n + 1))
    ∧ updateMetricFileLoop (.success :: rest) n
        = updateMetricFileLoop rest 0
    ∧ updateMetricFileLoop (.cancelled :: rest) n = .cancelledExit
    ∧ (∀ k ≤ 4,
        updateMetricFileLoop
            (List.replicate k .failure ++ .success :: rest) 0
          = updateMetricFileLoop rest 0)
    ∧ (∀ ticks : List Tick, Tick.cancelled ∉ ticks →
        (updateMetricFileLoop ticks 0 = .errorLimit
          ↔ ∃ pre post,
              ticks = pre ++ List.replicate MAX_FILE_WRITE_ERRORS .failure
                ++ post)) := by
  refine ⟨rfl, rfl, rfl, ?_, ?_⟩
  · intro k hk
    interval_cases k <;>
      simp [updateMetricFileLoop, List.replicate, MAX_FILE_WRITE_ERRORS]
  · intro ticks hnc
    constructor
    · intro hl
      rcases loop_errorLimit_decompose ticks 0 hnc hl with h | ⟨post, hp⟩
      · exact h
      · exact ⟨[], post, by simpa using hp⟩
    · rintro ⟨pre, post, rfl⟩
      have hpre : Tick.cancelled ∉ pre := by
        intro hh
        exact hnc (by simp [hh])
      exact loop_prefix_errorLimit pre post 0 hpre

/-- C7 witness: three failures, a resetting success, then five consecutive
failures — the loop exits with the error limit, as four-then-success alone
would not have terminated it. -/
theorem update_metric_file_loop_policy_witness :
    Tick.cancelled ∉
        ([.failure, .failure, .failure, .success] ++
          List.replicate MAX_FILE_WRITE_ERRORS Tick.failure ++ [])
    ∧ updateMetricFileLoop
        ([.failure, .failure, .failure, .success] ++
          List.replicate MAX_FILE_WRITE_ERRORS Tick.failure ++ []) 0
        = .errorLimit :=
  ⟨by decide,
   ((update_metric_file_loop_policy [] 0).2.2.2.2
      ([.failure, .failure, .failure, .success] ++
        List.replicate MAX_FILE_WRITE_ERRORS Tick.failure ++ [])
      (by decide)).mpr
     ⟨[.failure, .failure, .failure, .success], [], rfl⟩⟩

/-- The wrapped send never changes the span's start time. -/
lemma wrapped_send_start_time (span : RequestSpan) (m : AsgiMessage) :
    (wrapped_send span m).start_time = span.start_time := by
  cases m <;> rfl

/-- Folding the wrapped send never changes the span's start time. -/
lemma foldl_wrapped_send_start_time (messages : List AsgiMessage)
    (span : RequestSpan) :
    (messages.foldl wrapped_send span).start_time = span.start_time := by
  induction messages generalizing span with
  | nil => rfl
  | cons m rest ih =>
      simp only [List.foldl_cons]
      rw [ih, wrapped_send_start_time]

/-- Without a `http.response.start` event the span's status code is never
touched. -/
lemma foldl_wrapped_send_status_code (messages : List AsgiMessage)
    (span : RequestSpan)
    (h : ∀ m ∈ messages, isResponseStart m = false) :
    (messages.foldl wrapped_send span).status_code = span.status_code := by
  induction messages generalizing span with
  | nil => rfl
  | cons m rest ih =>
      simp only [List.foldl_cons]
      rw [ih _ (fun x hx => h x (List.mem_cons_of_mem _ hx))]
      cases m with
      | responseStart s =>
          exact absurd (h _ (List.mem_cons_self _ _)) (by simp [isResponseStart])
      | responseBody t => rfl
      | other => rfl

/-- Without a `http.response.body` event the span's duration and end time
are never touched. -/
lemma foldl_wrapped_send_duration (messages : List AsgiMessage)
    (span : RequestSpan)
    (h : ∀ m ∈ messages, isResponseBody m = false) :
    (messages.foldl wrapped_send span).duration = span.duration
    ∧ (messages.foldl wrapped_send span).end_time = span.end_time := by
  induction messages generalizing span with
  | nil => exact ⟨rfl, rfl⟩
  | cons m rest ih =>
      simp only [List.foldl_cons]
      have hrest := ih (wrapped_send span m)
        (fun x hx => h x (List.mem_cons_of_mem _ hx))
      cases m with
      | responseStart s => exact hrest
      | responseBody t =>
          exact absurd (h _ (List.mem_cons_self _ _)) (by simp [isResponseBody])
      | other => exact hrest

/-- C8 counterexample to the claimed server-error default: a Litestar
request whose application raises before any `http.response.start` event is
recorded in `responses_total` with status-code label "200", not the
server-error sentinel "500" — `RequestSpan.status_code` defaults to 200. -/
theorem litestar_span_default_counterexample :
    ({ start_time := 0 } : RequestSpan).status_code = 200
    ∧ responseStatusCodes
        (litestar_call true none none ⟨"svc", "pod"⟩ "GET" "/x" 0 []
          (some "ValueError") none).2
        = ["200"]
    ∧ ("200" : String) ≠ "500" := by
  refine ⟨rfl, ?_, by decide⟩
  rfl

/-- C8 (amended): the per-request span's observed status code defaults to
200 until overwritten by the response-start event; its duration stays zero
until the response body is fully sent, at which point
duration = end − start; and the duration held by the span is what the
`finally` block records into the processing-time histogram. -/
theorem litestar_span_lifecycle
    (common : CommonLabels) (method pathTemplate : String)
    (include_routes exclude_routes : Option (List String))
    (startTime t : Int) (s : Nat) (messages : List AsgiMessage)
    (outcome ctxExceptionType : Option String) :
    ((∀ m ∈ messages, isResponseStart m = false) →
        (finalSpan startTime messages).status_code = 200)
    ∧ (finalSpan startTime (messages ++ [.responseStart s])).status_code = s
    ∧ ((∀ m ∈ messages, isResponseBody m = false) →
        (finalSpan startTime messages).duration = 0
          ∧ (finalSpan startTime messages).end_time = 0)
    ∧ (finalSpan startTime (messages ++ [.responseBody t])).duration
        = t - startTime
    ∧ (finalSpan startTime (messages ++ [.responseBody t])).end_time = t
    ∧ (is_excluded include_routes exclude_routes pathTemplate = false →
        ⟨.processing_time, httpLabels common method pathTemplate,
          .observe ((finalSpan startTime messages).duration)⟩
          ∈ (litestar_call true include_routes exclude_routes common method
              pathTemplate startTime messages outcome
              ctxExceptionType).2) := by
  refine ⟨?_, ?_, ?_, ?_, ?_, ?_⟩
  · intro h
    exact foldl_wrapped_send_status_code messages _ h
  · unfold finalSpan
    rw [List.foldl_append]
    rfl
  · intro h
    exact foldl_wrapped_send_duration messages _ h
  · unfold finalSpan
    rw [List.foldl_append]
    simp only [List.foldl_cons, List.foldl_nil]
    show t - (messages.foldl wrapped_send
        { start_time := startTime }).start_time = t - startTime
    rw [foldl_wrapped_send_start_time]
  · unfold finalSpan
    rw [List.foldl_append]
    rfl
  · intro hx
    simp only [litestar_call, hx, Bool.not_true, Bool.false_or,
      Bool.false_eq_true, not_false_eq_true, if_neg, reduceIte]
    cases ctxExceptionType <;> simp

/-- C8 (amended) witness: with no messages the span keeps status 200 and
zero duration; a terminal body event at instant 9 from start 2 yields
duration 7; and the processing-time histogram receives the span's
duration. -/
theorem litestar_span_lifecycle_witness :
    (finalSpan 2 []).status_code = 200
    ∧ (finalSpan 2 ([] ++ [.responseStart 204])).status_code = 204
    ∧ ((finalSpan 2 []).duration = 0 ∧ (finalSpan 2 []).end_time = 0)
    ∧ (finalSpan 2 ([] ++ [.responseBody 9])).duration = 9 - 2
    ∧ (finalSpan 2 ([] ++ [.responseBody 9])).end_time = 9
    ∧ ⟨.processing_time, httpLabels ⟨"svc", "pod"⟩ "GET" "/ok",
        .observe ((finalSpan 2 []).duration)⟩
        ∈ (litestar_call true none none ⟨"svc", "pod"⟩ "GET" "/ok" 2 []
            none none).2 := by
  have h := litestar_span_lifecycle ⟨"svc", "pod"⟩ "GET" "/ok" none none
    2 9 204 [] none none
  exact ⟨h.1 (by decide), h.2.1, h.2.2.1 (by decide), h.2.2.2.1,
    h.2.2.2.2.1, h.2.2.2.2.2 (by decide)⟩

/-- C10: the route filters passed to `add_middleware` / `get_middleware`
are stored on the middleware class itself: a second configuration call
overwrites whatever the first one stored, the stored attributes are exactly
the (set-converted) arguments of the last call, and the exclusion decision
every instance computes afterwards is the decision under the last call's
sets — membership-wise identical to the raw iterables passed in. -/
theorem add_middleware_last_call_wins
    (inc1 exc1 inc2 exc2 : Option (List String))
    (attrs0 : MiddlewareClassAttrs) (t : String) :
    add_middleware inc2 exc2 (add_middleware inc1 exc1 attrs0)
        = add_middleware inc2 exc2 attrs0
    ∧ (add_middleware inc2 exc2
        (add_middleware inc1 exc1 attrs0)).include_routes = toRouteSet inc2
    ∧ (add_middleware inc2 exc2
        (add_middleware inc1 exc1 attrs0)).exclude_routes = toRouteSet exc2
    ∧ instanceIsExcluded
        (add_middleware inc2 exc2 (add_middleware inc1 exc1 attrs0)) t
        = is_excluded inc2 exc2 t := by
  refine ⟨rfl, rfl, rfl, ?_⟩
  have boolExt : ∀ a b : Bool, (a = true ↔ b = true) → a = b := by decide
  have hmem : ∀ o : Option (List String),
      optMem t (toRouteSet o) = optMem t o := by
    intro o
    cases o with
    | none => rfl
    | some l =>
        simp only [toRouteSet, Option.map, optMem]
        apply boolExt
        constructor
        · intro h
          exact List.elem_eq_true_of_mem
            (List.mem_dedup.mp (List.mem_of_elem_eq_true h))
        · intro h
          exact List.elem_eq_true_of_mem
            (List.mem_dedup.mpr (List.mem_of_elem_eq_true h))
  have htruthy : ∀ o : Option (List String),
      optTruthy (toRouteSet o) = optTruthy o := by
    intro o
    cases o with
    | none => rfl
    | some l =>
        simp only [toRouteSet, Option.map, optTruthy]
        have hempty : l.dedup.isEmpty = l.isEmpty := by
          apply boolExt
          rw [List.isEmpty_iff, List.isEmpty_iff]
          exact List.dedup_eq_nil l
        rw [hempty]
  simp only [instanceIsExcluded, add_middleware, is_excluded, hmem, htruthy]

end HuntflowBaseMetrics
